import Mathlib

/-!
Verification development for the Mnemosyne CLIP embedding service
(`src/embeddings/main.py`).

The service decodes base64-encoded images, runs them through a CLIP
vision model, L2-normalizes the resulting feature vector and serves the
result over single-image and batch HTTP endpoints.

Shallow embedding conventions:
* Python exceptions are modelled by the `Except PyErr` monad; a `PyErr`
  carries the Python exception class (`PyErrKind`) and its message.
* The external collaborators (`base64.b64decode`, `PIL.Image.open`,
  `Image.convert`, `torch.cuda.is_available`, the pretrained CLIP model
  and processor) are fields of an `Env` record or of the loaded model /
  processor objects: the repository invokes them through a narrow
  contract and their internals are out of scope.
* Python floats are idealized as real numbers, so tensor contents are
  `List ℝ` and the L2 norm uses `Real.sqrt`.
* The module-level globals `model`, `processor`, `device` form the
  `ServiceState` record, threaded explicitly; request handlers never
  write to it (only the `lifespan` startup hook does), matching the
  source, so handlers are pure functions of the state.
-/

namespace Mnemosyne

/-- Python exception classes that can flow through the service. -/
inductive PyErrKind where
  | ValueError
  | RuntimeError
  | BinasciiError
  | UnidentifiedImageError
  | OtherError
deriving DecidableEq

/-- A Python exception: its class and its message (`str(e)`). -/
structure PyErr where
  kind : PyErrKind
  msg : String
deriving DecidableEq

/-- A decoded in-memory image (`PIL.Image.Image`), abstracted to its pixel
data; the service never inspects it, it only passes it to the processor. -/
structure PILImage where
  raw : List Nat
deriving DecidableEq

/-- Output of the CLIP processor (`processor(images=image, return_tensors="pt")`),
abstracted to the preprocessed pixel tensor. -/
structure ProcessedInput where
  pixel_values : List ℝ

/-- The loaded CLIP model object: the service only calls
`get_image_features` on it (inside `torch.no_grad()`). The call may raise. -/
structure CLIPModel where
  get_image_features : ProcessedInput → Except PyErr (List ℝ)

/-- The loaded CLIP processor object: `processor(images=image, return_tensors="pt")`.
The call may raise. -/
structure CLIPProcessor where
  run : PILImage → Except PyErr ProcessedInput

/-- External collaborators of the service, invoked through a narrow
contract: base64 decoding, PIL image opening and RGB conversion, CUDA
availability, and the pretrained model/processor returned by
`from_pretrained`. -/
structure Env where
  b64decode : String → Except PyErr (List Nat)
  imageOpen : List Nat → Except PyErr PILImage
  convertRGB : PILImage → PILImage
  cuda_available : Bool
  pretrainedModel : CLIPModel
  pretrainedProcessor : CLIPProcessor

/-- The module-level globals of `main.py`: `model`, `processor`, `device`. -/
structure ServiceState where
  model : Option CLIPModel
  processor : Option CLIPProcessor
  device : String

/-- Module-level initial values: `model = None`, `processor = None`,
`device = "cpu"` (lines 24-26 of `main.py`). -/
def initialState : ServiceState :=
  { model := none, processor := none, device := "cpu" }

/-- The `lifespan` startup hook: pick `"cuda"` when available else `"cpu"`,
then load model and processor (lines 29-48). -/
def lifespanStartup (env : Env) (_s : ServiceState) : ServiceState :=
  { model := some env.pretrainedModel
    processor := some env.pretrainedProcessor
    device := if env.cuda_available then "cuda" else "cpu" }

/-- Python `str.split(",")` on a character list: splits at every comma,
keeping empty segments, so `"a,b,c"` becomes `["a", "b", "c"]`. -/
def splitC : List Char → List (List Char)
  | [] => [[]]
  | c :: rest =>
    match splitC rest with
    | [] => [[c]]
    | s :: ss => if c = ',' then [] :: s :: ss else (c :: s) :: ss

/-- The data-URL handling of `decode_image` (lines 107-108):
`if "," in image_base64: image_base64 = image_base64.split(",")[1]`. -/
def stripPayload (s : String) : String :=
  if ',' ∈ s.data then { data := (splitC s.data).getD 1 [] } else s

/-- What §4.1 of the spec says the decoder does to the payload: strip
everything up to and including the first separator, keeping all of the
remainder. Stated for comparison with `stripPayload`, the source's
behavior. -/
def specAfterFirstSep (s : String) : String :=
  if ',' ∈ s.data then { data := (s.data.dropWhile (fun c => c ≠ ',')).tail } else s

/-- A Python `try: ... except Exception as e: ...` block over code that can
raise: run the body; on an exception, run the handler. -/
def tryExcept {α : Type} (body : Except PyErr α)
    (handler : PyErr → Except PyErr α) : Except PyErr α :=
  match body with
  | Except.ok a => Except.ok a
  | Except.error e => handler e

/-- `decode_image` (lines 103-114): strip an optional data-URL prefix,
base64-decode, open as an image, convert to RGB; any exception is caught
and re-raised as `ValueError(f"Failed to decode image: {e}")`. -/
def decode_image (env : Env) (image_base64 : String) : Except PyErr PILImage :=
  tryExcept
    (do
      let image_data ← env.b64decode (stripPayload image_base64)
      let image ← env.imageOpen image_data
      Except.ok (env.convertRGB image))
    (fun e =>
      Except.error { kind := PyErrKind.ValueError
                     msg := "Failed to decode image: " ++ e.msg })

/-- The Euclidean (L2) norm used on line 132:
`image_features.norm(p=2, dim=-1, keepdim=True)`. -/
noncomputable def l2norm (v : List ℝ) : ℝ :=
  Real.sqrt ((v.map (fun x => x ^ 2)).sum)

/-- Line 132: `image_features = image_features / image_features.norm(...)`,
dividing every component by the vector's L2 norm. -/
noncomputable def l2normalize (v : List ℝ) : List ℝ :=
  v.map (fun x => x / l2norm v)

/-- `generate_embedding` (lines 117-137): raise
`RuntimeError("Model not loaded")` when `model` or `processor` is `None`;
otherwise preprocess the image, run `get_image_features`, L2-normalize and
return the flattened list. Exceptions from the processor or model
propagate to the caller (there is no try/except in this function). -/
noncomputable def generate_embedding (s : ServiceState) (image : PILImage) :
    Except PyErr (List ℝ) :=
  match s.model, s.processor with
  | some m, some p => do
    let inputs ← p.run image
    let image_features ← m.get_image_features inputs
    Except.ok (l2normalize image_features)
  | _, _ => Except.error { kind := PyErrKind.RuntimeError, msg := "Model not loaded" }

/-- Request body of `POST /embed` (lines 73-76). -/
structure EmbeddingRequest where
  image_base64 : String
  image_id : Option String
deriving DecidableEq

/-- Response body of `POST /embed` (lines 79-83). -/
structure EmbeddingResponse where
  image_id : Option String
  embedding : List ℝ
  dimension : Nat

/-- Request body of `POST /embed/batch` (lines 86-88). -/
structure BatchEmbeddingRequest where
  images : List EmbeddingRequest

/-- Response body of `POST /embed/batch` (lines 91-93). -/
structure BatchEmbeddingResponse where
  embeddings : List EmbeddingResponse

/-- Response body of `GET /health` (lines 96-100). -/
structure HealthResponse where
  status : String
  model_loaded : Bool
  device : String
deriving DecidableEq

/-- A FastAPI `HTTPException` with its status code and detail message. -/
structure HTTPError where
  status_code : Nat
  detail : String
deriving DecidableEq

/-- `health_check` (lines 140-147): always `"healthy"`, `model_loaded`
iff the global `model` is not `None`, and the current `device` string. -/
def health_check (s : ServiceState) : HealthResponse :=
  { status := "healthy", model_loaded := s.model.isSome, device := s.device }

/-- The decode-then-embed sequence appearing in the bodies of both
`create_embedding` (lines 153-164) and the per-item loop of
`create_batch_embeddings` (lines 179-187): decode the payload, generate
the embedding, build the response echoing the caller's `image_id` with
`dimension = len(embedding)`; any raised exception propagates. -/
noncomputable def embed_pipeline (env : Env) (s : ServiceState)
    (image_base64 : String) (image_id : Option String) :
    Except PyErr EmbeddingResponse := do
  let image ← decode_image env image_base64
  let embedding ← generate_embedding s image
  Except.ok { image_id := image_id
              embedding := embedding
              dimension := embedding.length }

/-- The two `except` clauses of `create_embedding` (lines 166-170): a
`ValueError` becomes HTTP 400 with `str(e)` as detail, any other
exception becomes HTTP 500 with detail `f"Embedding generation failed: {e}"`.
The 400 branch matches on the exception class, not on where the exception
was raised. -/
def httpWrap (attempt : Except PyErr EmbeddingResponse) :
    Except HTTPError EmbeddingResponse :=
  match attempt with
  | Except.ok r => Except.ok r
  | Except.error e =>
    if e.kind = PyErrKind.ValueError then
      Except.error { status_code := 400, detail := e.msg }
    else
      Except.error { status_code := 500
                     detail := "Embedding generation failed: " ++ e.msg }

/-- `create_embedding`, the `POST /embed` handler (lines 150-170). -/
noncomputable def create_embedding (env : Env) (s : ServiceState)
    (request : EmbeddingRequest) : Except HTTPError EmbeddingResponse :=
  httpWrap (embed_pipeline env s request.image_base64 request.image_id)

/-- The body of the `for img_request in request.images` loop of
`create_batch_embeddings` (lines 178-191): decode and embed one item,
returning `some` response on success and `none` when any exception was
caught (the item is skipped, no placeholder). -/
noncomputable def process_batch_item (env : Env) (s : ServiceState)
    (r : EmbeddingRequest) : Option EmbeddingResponse :=
  (embed_pipeline env s r.image_base64 r.image_id).toOption

/-- `create_batch_embeddings`, the `POST /embed/batch` handler (lines
173-193): process the items sequentially in input order, appending each
success and skipping each failure; the handler itself never raises, so
the endpoint always answers HTTP 200 with the collected list. -/
noncomputable def create_batch_embeddings (env : Env) (s : ServiceState)
    (request : BatchEmbeddingRequest) : BatchEmbeddingResponse :=
  { embeddings := request.images.filterMap (process_batch_item env s) }

/-! ### Shared lemmas about the `Except` monad and `tryExcept` -/

lemma except_ok_bind {α β : Type} (a : α) (f : α → Except PyErr β) :
    (Except.ok a >>= f) = f a := rfl

lemma except_error_bind {α β : Type} (e : PyErr) (f : α → Except PyErr β) :
    ((Except.error e : Except PyErr α) >>= f) = Except.error e := rfl

lemma tryExcept_ok {α : Type} (a : α) (h : PyErr → Except PyErr α) :
    tryExcept (Except.ok a) h = Except.ok a := rfl

lemma tryExcept_error {α : Type} (e : PyErr) (h : PyErr → Except PyErr α) :
    tryExcept (Except.error e) h = h e := rfl

/-! ### Shared lemmas about the image decoder -/

/-- `decode_image` when base64 decoding raises. -/
lemma decode_image_b64_error (env : Env) (s : String) (e0 : PyErr)
    (hb : env.b64decode (stripPayload s) = Except.error e0) :
    decode_image env s =
      Except.error { kind := PyErrKind.ValueError
                     msg := "Failed to decode image: " ++ e0.msg } := by
  unfold decode_image
  rw [hb, except_error_bind, tryExcept_error]

/-- `decode_image` when the decoded bytes are not a supported image. -/
lemma decode_image_open_error (env : Env) (s : String) (bs : List Nat) (e1 : PyErr)
    (hb : env.b64decode (stripPayload s) = Except.ok bs)
    (ho : env.imageOpen bs = Except.error e1) :
    decode_image env s =
      Except.error { kind := PyErrKind.ValueError
                     msg := "Failed to decode image: " ++ e1.msg } := by
  unfold decode_image
  rw [hb]
  simp only [except_ok_bind]
  rw [ho, except_error_bind, tryExcept_error]

/-- `decode_image` when both external calls succeed. -/
lemma decode_image_ok (env : Env) (s : String) (bs : List Nat) (img : PILImage)
    (hb : env.b64decode (stripPayload s) = Except.ok bs)
    (ho : env.imageOpen bs = Except.ok img) :
    decode_image env s = Except.ok (env.convertRGB img) := by
  unfold decode_image
  rw [hb]
  simp only [except_ok_bind]
  rw [ho]
  simp only [except_ok_bind]
  rw [tryExcept_ok]

/-- Every error produced by `decode_image` is a `ValueError` carrying the
human-readable prefix. -/
lemma decode_image_error_valueerror (env : Env) (s : String) (e : PyErr)
    (he : decode_image env s = Except.error e) :
    e.kind = PyErrKind.ValueError ∧
    ∃ c, e.msg = "Failed to decode image: " ++ c := by
  cases hb : env.b64decode (stripPayload s) with
  | error e0 =>
    rw [decode_image_b64_error env s e0 hb] at he
    cases he
    exact ⟨rfl, e0.msg, rfl⟩
  | ok bs =>
    cases ho : env.imageOpen bs with
    | error e1 =>
      rw [decode_image_open_error env s bs e1 hb ho] at he
      cases he
      exact ⟨rfl, e1.msg, rfl⟩
    | ok img =>
      rw [decode_image_ok env s bs img hb ho] at he
      cases he

/-! ### Shared lemmas about the payload stripping (`split(",")[1]`) -/

lemma splitC_cons (c : Char) (rest : List Char) :
    splitC (c :: rest) =
      match splitC rest with
      | [] => [[c]]
      | s :: ss => if c = ',' then [] :: s :: ss else (c :: s) :: ss := rfl

lemma splitC_ne_nil : ∀ (l : List Char), splitC l ≠ []
  | [] => by simp [splitC]
  | c :: rest => by
    rw [splitC_cons]
    cases h : splitC rest with
    | nil => simp
    | cons s ss =>
      by_cases hc : c = ',' <;> simp [hc]

lemma splitC_no_comma (l : List Char) (h : ',' ∉ l) : splitC l = [l] := by
  induction l with
  | nil => rfl
  | cons c rest ih =>
    have hc : c ≠ ',' := fun hh => h (hh ▸ List.mem_cons_self c rest)
    have hr : ',' ∉ rest := fun hm => h (List.mem_cons_of_mem c hm)
    rw [splitC_cons, ih hr]
    simp [hc]

lemma splitC_append_comma (a b : List Char) (ha : ',' ∉ a) :
    splitC (a ++ ',' :: b) = a :: splitC b := by
  induction a with
  | nil =>
    show splitC (',' :: b) = [] :: splitC b
    rw [splitC_cons]
    cases h : splitC b with
    | nil => exact absurd h (splitC_ne_nil b)
    | cons s ss => simp
  | cons c a ih =>
    have hc : c ≠ ',' := fun hh => ha (hh ▸ List.mem_cons_self c a)
    have ha2 : ',' ∉ a := fun hm => ha (List.mem_cons_of_mem c hm)
    show splitC (c :: (a ++ ',' :: b)) = (c :: a) :: splitC b
    rw [splitC_cons, ih ha2]
    simp [hc]

lemma string_append_data (a b : String) : (a ++ b).data = a.data ++ b.data := rfl

/-- The stripping performed on a data-URL payload whose header and base64
portion are both free of further separators: the source's
`split(",")[1]` returns exactly the base64 portion. -/
lemma stripPayload_data_url (h d : String) (hh : ',' ∉ h.data) (hd : ',' ∉ d.data) :
    stripPayload (h ++ "," ++ d) = d := by
  have hdata : (h ++ "," ++ d).data = h.data ++ ',' :: d.data := by
    rw [string_append_data, string_append_data, List.append_assoc]
    rfl
  have hmem : ',' ∈ (h ++ "," ++ d).data := by
    rw [hdata]
    exact List.mem_append_right _ (List.mem_cons_self _ _)
  unfold stripPayload
  rw [if_pos hmem, hdata, splitC_append_comma h.data d.data hh, splitC_no_comma d.data hd]
  cases d with
  | mk l => rfl

lemma stripPayload_no_comma (d : String) (hd : ',' ∉ d.data) :
    stripPayload d = d := by
  unfold stripPayload
  rw [if_neg hd]

/-! ### Shared lemmas about the L2 normalization -/

lemma sum_sq_nonneg (v : List ℝ) : 0 ≤ (v.map (fun x => x ^ 2)).sum := by
  induction v with
  | nil => simp
  | cons x t ih =>
    simp only [List.map_cons, List.sum_cons]
    exact add_nonneg (sq_nonneg x) ih

lemma sum_sq_div (v : List ℝ) (c : ℝ) :
    ((v.map (fun x => x / c)).map (fun x => x ^ 2)).sum
      = (v.map (fun x => x ^ 2)).sum / c ^ 2 := by
  induction v with
  | nil => simp
  | cons x t ih =>
    simp only [List.map_cons, List.sum_cons, ih, div_pow]
    ring

/-- Dividing a vector by its nonzero L2 norm yields a unit vector. -/
lemma l2norm_l2normalize (v : List ℝ) (h : l2norm v ≠ 0) :
    l2norm (l2normalize v) = 1 := by
  have hs : 0 ≤ (v.map (fun x => x ^ 2)).sum := sum_sq_nonneg v
  have hsne : (v.map (fun x => x ^ 2)).sum ≠ 0 := by
    intro h0
    exact h (by simp [l2norm, h0])
  have hsq : l2norm v ^ 2 = (v.map (fun x => x ^ 2)).sum := Real.sq_sqrt hs
  have hrw : l2norm (l2normalize v) =
      Real.sqrt (((v.map (fun x => x / l2norm v)).map (fun x => x ^ 2)).sum) := rfl
  rw [hrw, sum_sq_div, hsq, div_self hsne, Real.sqrt_one]

/-! ### Shared lemmas about the embedding generator -/

/-- `generate_embedding` raises `RuntimeError("Model not loaded")` whenever
the model or the processor global is still `None`. -/
lemma generate_embedding_not_loaded (s : ServiceState) (image : PILImage)
    (h : s.model = none ∨ s.processor = none) :
    generate_embedding s image =
      Except.error { kind := PyErrKind.RuntimeError, msg := "Model not loaded" } := by
  unfold generate_embedding
  rcases h with h | h
  · rw [h]
  · rw [h]
    cases hm : s.model <;> rfl

lemma generate_embedding_loaded (s : ServiceState) (m : CLIPModel)
    (p : CLIPProcessor) (image : PILImage)
    (hm : s.model = some m) (hp : s.processor = some p) :
    generate_embedding s image = (do
      let inputs ← p.run image
      let image_features ← m.get_image_features inputs
      Except.ok (l2normalize image_features)) := by
  unfold generate_embedding
  rw [hm, hp]

lemma generate_embedding_run_error (s : ServiceState) (m : CLIPModel)
    (p : CLIPProcessor) (image : PILImage) (e : PyErr)
    (hm : s.model = some m) (hp : s.processor = some p)
    (hrun : p.run image = Except.error e) :
    generate_embedding s image = Except.error e := by
  rw [generate_embedding_loaded s m p image hm hp, hrun, except_error_bind]

lemma generate_embedding_feat_error (s : ServiceState) (m : CLIPModel)
    (p : CLIPProcessor) (image : PILImage) (inputs : ProcessedInput) (e : PyErr)
    (hm : s.model = some m) (hp : s.processor = some p)
    (hrun : p.run image = Except.ok inputs)
    (hfeat : m.get_image_features inputs = Except.error e) :
    generate_embedding s image = Except.error e := by
  rw [generate_embedding_loaded s m p image hm hp, hrun]
  simp only [except_ok_bind]
  rw [hfeat, except_error_bind]

lemma generate_embedding_succeeds (s : ServiceState) (m : CLIPModel)
    (p : CLIPProcessor) (image : PILImage) (inputs : ProcessedInput) (raw : List ℝ)
    (hm : s.model = some m) (hp : s.processor = some p)
    (hrun : p.run image = Except.ok inputs)
    (hfeat : m.get_image_features inputs = Except.ok raw) :
    generate_embedding s image = Except.ok (l2normalize raw) := by
  rw [generate_embedding_loaded s m p image hm hp, hrun]
  simp only [except_ok_bind]
  rw [hfeat, except_ok_bind]

/-- Inversion: a successful `generate_embedding` call went through a loaded
model and processor and returned the normalized raw features. -/
lemma generate_embedding_ok_inv (s : ServiceState) (image : PILImage) (emb : List ℝ)
    (hok : generate_embedding s image = Except.ok emb) :
    ∃ m p inputs raw, s.model = some m ∧ s.processor = some p ∧
      p.run image = Except.ok inputs ∧
      m.get_image_features inputs = Except.ok raw ∧
      emb = l2normalize raw := by
  cases hm : s.model with
  | none =>
    rw [generate_embedding_not_loaded s image (Or.inl hm)] at hok
    cases hok
  | some m =>
    cases hp : s.processor with
    | none =>
      rw [generate_embedding_not_loaded s image (Or.inr hp)] at hok
      cases hok
    | some p =>
      cases hrun : p.run image with
      | error e =>
        rw [generate_embedding_run_error s m p image e hm hp hrun] at hok
        cases hok
      | ok inputs =>
        cases hfeat : m.get_image_features inputs with
        | error e =>
          rw [generate_embedding_feat_error s m p image inputs e hm hp hrun hfeat] at hok
          cases hok
        | ok raw =>
          rw [generate_embedding_succeeds s m p image inputs raw hm hp hrun hfeat] at hok
          injection hok with hh
          exact ⟨m, p, inputs, raw, rfl, rfl, hrun, hfeat, hh.symm⟩

/-! ### Shared lemmas about the decode-then-embed pipeline -/

lemma embed_pipeline_decode_error (env : Env) (s : ServiceState)
    (b : String) (id : Option String) (e : PyErr)
    (hd : decode_image env b = Except.error e) :
    embed_pipeline env s b id = Except.error e := by
  unfold embed_pipeline
  rw [hd, except_error_bind]

lemma embed_pipeline_gen_error (env : Env) (s : ServiceState)
    (b : String) (id : Option String) (image : PILImage) (e : PyErr)
    (hd : decode_image env b = Except.ok image)
    (hg : generate_embedding s image = Except.error e) :
    embed_pipeline env s b id = Except.error e := by
  unfold embed_pipeline
  rw [hd]
  simp only [except_ok_bind]
  rw [hg, except_error_bind]

lemma embed_pipeline_succeeds (env : Env) (s : ServiceState)
    (b : String) (id : Option String) (image : PILImage) (emb : List ℝ)
    (hd : decode_image env b = Except.ok image)
    (hg : generate_embedding s image = Except.ok emb) :
    embed_pipeline env s b id =
      Except.ok { image_id := id, embedding := emb, dimension := emb.length } := by
  unfold embed_pipeline
  rw [hd]
  simp only [except_ok_bind]
  rw [hg, except_ok_bind]

lemma embed_pipeline_ok_inv (env : Env) (s : ServiceState)
    (b : String) (id : Option String) (resp : EmbeddingResponse)
    (hok : embed_pipeline env s b id = Except.ok resp) :
    ∃ image emb, decode_image env b = Except.ok image ∧
      generate_embedding s image = Except.ok emb ∧
      resp = { image_id := id, embedding := emb, dimension := emb.length } := by
  cases hd : decode_image env b with
  | error e =>
    rw [embed_pipeline_decode_error env s b id e hd] at hok
    cases hok
  | ok image =>
    cases hg : generate_embedding s image with
    | error e =>
      rw [embed_pipeline_gen_error env s b id image e hd hg] at hok
      cases hok
    | ok emb =>
      rw [embed_pipeline_succeeds env s b id image emb hd hg] at hok
      injection hok with hh
      exact ⟨image, emb, rfl, hg, hh.symm⟩

/-! ### Shared lemmas about the batch loop body -/

lemma process_batch_item_some_inv (env : Env) (s : ServiceState)
    (r : EmbeddingRequest) (resp : EmbeddingResponse)
    (hsome : process_batch_item env s r = some resp) :
    ∃ image emb, decode_image env r.image_base64 = Except.ok image ∧
      generate_embedding s image = Except.ok emb ∧
      resp = { image_id := r.image_id, embedding := emb, dimension := emb.length } := by
  unfold process_batch_item at hsome
  cases hpipe : embed_pipeline env s r.image_base64 r.image_id with
  | error e =>
    rw [hpipe] at hsome
    cases hsome
  | ok resp2 =>
    rw [hpipe] at hsome
    simp only [Except.toOption] at hsome
    injection hsome with h2
    obtain ⟨image, emb, hd, hg, hresp⟩ := embed_pipeline_ok_inv env s _ _ resp2 hpipe
    exact ⟨image, emb, hd, hg, h2 ▸ hresp⟩

/-- Every appended batch result echoes its item's `image_id`. -/
lemma process_batch_item_echoes_id (env : Env) (s : ServiceState)
    (r : EmbeddingRequest) (resp : EmbeddingResponse)
    (hsome : process_batch_item env s r = some resp) :
    resp.image_id = r.image_id := by
  obtain ⟨image, emb, _, _, hresp⟩ := process_batch_item_some_inv env s r resp hsome
  rw [hresp]

/-- Before the model has loaded, every batch item fails and is skipped. -/
lemma process_batch_item_not_ready (env : Env) (s : ServiceState)
    (r : EmbeddingRequest) (h : s.model = none) :
    process_batch_item env s r = none := by
  unfold process_batch_item
  cases hd : decode_image env r.image_base64 with
  | error e =>
    rw [embed_pipeline_decode_error env s _ _ e hd]
    rfl
  | ok image =>
    rw [embed_pipeline_gen_error env s _ _ image _ hd
      (generate_embedding_not_loaded s image (Or.inl h))]
    rfl

/-! ### Shared list lemmas for the batch orchestrator -/

lemma filterMap_length_all_some {α β : Type} (f : α → Option β) :
    ∀ (l : List α), (∀ x ∈ l, (f x).isSome) → (l.filterMap f).length = l.length := by
  intro l
  induction l with
  | nil => intro _; rfl
  | cons x t ih =>
    intro hall
    cases hx : f x with
    | none =>
      have hcontra := hall x (List.mem_cons_self x t)
      rw [hx] at hcontra
      cases hcontra
    | some b =>
      rw [List.filterMap_cons_some hx, List.length_cons, List.length_cons,
        ih (fun y hy => hall y (List.mem_cons_of_mem x hy))]

/-- The ids of the batch output form an order-preserving subsequence of the
ids of the batch input. -/
lemma batch_ids_sublist (env : Env) (s : ServiceState) :
    ∀ (l : List EmbeddingRequest),
      List.Sublist ((l.filterMap (process_batch_item env s)).map (fun r => r.image_id))
        (l.map (fun r => r.image_id)) := by
  intro l
  induction l with
  | nil => simp
  | cons r rest ih =>
    cases hr : process_batch_item env s r with
    | none =>
      rw [List.filterMap_cons_none hr, List.map_cons]
      exact List.Sublist.cons _ ih
    | some resp =>
      rw [List.filterMap_cons_some hr, List.map_cons, List.map_cons,
        process_batch_item_echoes_id env s r resp hr]
      exact List.Sublist.cons₂ _ ih

/-! ### Shared lemmas about the single-image endpoint -/

lemma httpWrap_ok (r : EmbeddingResponse) : httpWrap (Except.ok r) = Except.ok r := rfl

lemma httpWrap_error (e : PyErr) :
    httpWrap (Except.error e) =
      if e.kind = PyErrKind.ValueError then
        Except.error { status_code := 400, detail := e.msg }
      else
        Except.error { status_code := 500
                       detail := "Embedding generation failed: " ++ e.msg } := rfl

lemma httpWrap_error_ne_ok (e : PyErr) (r : EmbeddingResponse) :
    httpWrap (Except.error e) ≠ Except.ok r := by
  rw [httpWrap_error]
  by_cases hk : e.kind = PyErrKind.ValueError
  · rw [if_pos hk]
    intro h
    cases h
  · rw [if_neg hk]
    intro h
    cases h

/-- A successful `POST /embed` answer comes from a successful pipeline run. -/
lemma create_embedding_ok_inv (env : Env) (s : ServiceState)
    (req : EmbeddingRequest) (resp : EmbeddingResponse)
    (hok : create_embedding env s req = Except.ok resp) :
    embed_pipeline env s req.image_base64 req.image_id = Except.ok resp := by
  unfold create_embedding at hok
  cases hpipe : embed_pipeline env s req.image_base64 req.image_id with
  | error e =>
    rw [hpipe] at hok
    exact absurd hok (httpWrap_error_ne_ok e resp)
  | ok resp2 =>
    rw [hpipe, httpWrap_ok] at hok
    injection hok with h2
    rw [h2]

/-- When the loaded model produces 512-dimensional raw features, every
successful embedding has length 512 (normalization is a `map`). -/
lemma generate_embedding_ok_length (s : ServiceState) (m : CLIPModel)
    (image : PILImage) (emb : List ℝ) (hm : s.model = some m)
    (h512 : ∀ inputs v, m.get_image_features inputs = Except.ok v → v.length = 512)
    (hok : generate_embedding s image = Except.ok emb) : emb.length = 512 := by
  obtain ⟨m2, p, inputs, raw, hm2, hp, hrun, hfeat, hemb⟩ :=
    generate_embedding_ok_inv s image emb hok
  have hmm : m2 = m := by
    rw [hm] at hm2
    injection hm2 with h2
    exact h2.symm
  rw [hemb]
  unfold l2normalize
  rw [List.length_map]
  exact h512 inputs raw (hmm ▸ hfeat)

/-! ### Shared lemma about the spec's stripping rule -/

lemma dropWhile_append_comma (a b : List Char) (ha : ',' ∉ a) :
    List.dropWhile (fun c => c ≠ ',') (a ++ ',' :: b) = ',' :: b := by
  induction a with
  | nil => simp [List.dropWhile_cons]
  | cons c a ih =>
    have hc : c ≠ ',' := fun hh => ha (hh ▸ List.mem_cons_self c a)
    have ha2 : ',' ∉ a := fun hm => ha (List.mem_cons_of_mem c hm)
    have hdec : decide (c ≠ ',') = true := by
      simp [hc]
    rw [List.cons_append, List.dropWhile_cons, hdec, if_pos rfl]
    exact ih ha2

/-! ### Concrete fixtures used by the witnesses -/

/-- A model whose image features are the unit vector `[1]`. -/
noncomputable def mUnit : CLIPModel :=
  { get_image_features := fun _ => Except.ok [1] }

/-- A model producing 512-dimensional features, like CLIP ViT-B/32. -/
noncomputable def m512 : CLIPModel :=
  { get_image_features := fun _ => Except.ok (List.replicate 512 1) }

/-- A processor that always succeeds. -/
def pOk : CLIPProcessor :=
  { run := fun _ => Except.ok { pixel_values := [] } }

/-- A processor that raises a `ValueError` during preprocessing. -/
def pBadVal : CLIPProcessor :=
  { run := fun _ =>
      Except.error { kind := PyErrKind.ValueError, msg := "preprocessing failed" } }

/-- An environment whose base64 and image decoding always succeed. -/
noncomputable def envOk : Env :=
  { b64decode := fun _ => Except.ok []
    imageOpen := fun bs => Except.ok { raw := bs }
    convertRGB := fun i => i
    cuda_available := false
    pretrainedModel := mUnit
    pretrainedProcessor := pOk }

/-- An environment whose base64 decoding always raises. -/
noncomputable def envB64Fails : Env :=
  { envOk with
    b64decode := fun _ =>
      Except.error { kind := PyErrKind.BinasciiError, msg := "Incorrect padding" } }

/-- An environment where exactly the payload `"corrupt"` fails to decode. -/
noncomputable def envMix : Env :=
  { envOk with
    b64decode := fun payload =>
      if payload = "corrupt" then
        Except.error { kind := PyErrKind.BinasciiError, msg := "Incorrect padding" }
      else Except.ok [] }

noncomputable def stLoaded : ServiceState :=
  { model := some mUnit, processor := some pOk, device := "cpu" }

noncomputable def st512 : ServiceState :=
  { model := some m512, processor := some pOk, device := "cpu" }

noncomputable def stBadProc : ServiceState :=
  { model := some mUnit, processor := some pBadVal, device := "cpu" }

def reqA : EmbeddingRequest := { image_base64 := "QUJD", image_id := some "validA" }

def reqB : EmbeddingRequest := { image_base64 := "corrupt", image_id := some "corruptB" }

def reqC : EmbeddingRequest := { image_base64 := "QUJD", image_id := some "validC" }

/-- The response produced for any item under `envMix`/`stLoaded`. -/
noncomputable def respUnit (id : Option String) : EmbeddingResponse :=
  { image_id := id
    embedding := l2normalize [1]
    dimension := (l2normalize [1]).length }

lemma l2norm_singleton_one : l2norm [(1 : ℝ)] = 1 := by
  simp [l2norm]

/-! ### Claim theorems -/

/-- C1: for every image on which embedding generation succeeds (loaded
model and processor, successful preprocessing and inference, with the
model's raw feature vector nonzero as CLIP's features are), the returned
vector is the raw feature vector divided by its Euclidean (L2) norm, so
the returned vector has unit length — in particular within the spec's
1e-4 tolerance. -/
theorem C1_generated_vector_unit_norm (s : ServiceState) (m : CLIPModel)
    (p : CLIPProcessor) (image : PILImage) (inputs : ProcessedInput) (raw : List ℝ)
    (hm : s.model = some m) (hp : s.processor = some p)
    (hrun : p.run image = Except.ok inputs)
    (hfeat : m.get_image_features inputs = Except.ok raw)
    (hnz : l2norm raw ≠ 0) :
    generate_embedding s image = Except.ok (raw.map (fun x => x / l2norm raw)) ∧
    l2norm (l2normalize raw) = 1 ∧
    |l2norm (l2normalize raw) - 1| ≤ 1 / 10000 := by
  refine ⟨generate_embedding_succeeds s m p image inputs raw hm hp hrun hfeat, ?_, ?_⟩
  · exact l2norm_l2normalize raw hnz
  · rw [l2norm_l2normalize raw hnz]
    norm_num

/-- Witness for C1 at a concrete loaded state whose raw features are `[1]`. -/
theorem C1_witness :
    generate_embedding stLoaded { raw := [] } =
      Except.ok ([(1 : ℝ)].map (fun x => x / l2norm [(1 : ℝ)])) ∧
    l2norm (l2normalize [(1 : ℝ)]) = 1 ∧
    |l2norm (l2normalize [(1 : ℝ)]) - 1| ≤ 1 / 10000 :=
  C1_generated_vector_unit_norm stLoaded mUnit pOk { raw := [] }
    { pixel_values := [] } [1] rfl rfl rfl rfl
    (by rw [l2norm_singleton_one]; exact one_ne_zero)

/-- C2: for every successful embedding result, single or batch, the
reported `dimension` equals the length of the returned vector, and when
the loaded model produces 512-dimensional raw features (as CLIP ViT-B/32
does) both equal 512. -/
theorem C2_dimension_equals_length_512 (env : Env) (s : ServiceState) (m : CLIPModel)
    (hm : s.model = some m)
    (h512 : ∀ inputs v, m.get_image_features inputs = Except.ok v → v.length = 512) :
    (∀ req resp, create_embedding env s req = Except.ok resp →
        resp.dimension = resp.embedding.length ∧ resp.embedding.length = 512) ∧
    (∀ breq resp, resp ∈ (create_batch_embeddings env s breq).embeddings →
        resp.dimension = resp.embedding.length ∧ resp.embedding.length = 512) := by
  constructor
  · intro req resp hok
    have hpipe := create_embedding_ok_inv env s req resp hok
    obtain ⟨image, emb, hd, hg, hresp⟩ := embed_pipeline_ok_inv env s _ _ resp hpipe
    have hlen : emb.length = 512 :=
      generate_embedding_ok_length s m image emb hm h512 hg
    exact ⟨by rw [hresp], by rw [hresp]; exact hlen⟩
  · intro breq resp hmem
    obtain ⟨r, hr, hsome⟩ := List.mem_filterMap.mp hmem
    obtain ⟨image, emb, hd, hg, hresp⟩ := process_batch_item_some_inv env s r resp hsome
    have hlen : emb.length = 512 :=
      generate_embedding_ok_length s m image emb hm h512 hg
    exact ⟨by rw [hresp], by rw [hresp]; exact hlen⟩

/-- The concrete response the 512-dimensional fixture produces. -/
noncomputable def resp512 : EmbeddingResponse :=
  { image_id := some "a"
    embedding := l2normalize (List.replicate 512 1)
    dimension := (l2normalize (List.replicate 512 1)).length }

/-- Witness for C2 with a 512-dimensional fixture model. -/
theorem C2_witness :
    resp512.dimension = resp512.embedding.length ∧ resp512.embedding.length = 512 := by
  have h := C2_dimension_equals_length_512 envOk st512 m512 rfl
    (fun inputs v hv => by
      injection hv with h2
      rw [← h2, List.length_replicate])
  exact h.1 { image_base64 := "QUJD", image_id := some "a" } resp512 rfl

/-- C3: an input that is not valid base64, or whose decoded bytes are not
a supported image, makes `decode_image` fail with the `DecodeError`
(`ValueError` carrying the human-readable cause), and `decode_image`
never fails with any other kind of error. -/
theorem C3_decode_error_taxonomy (env : Env) (s : String) :
    (∀ e, decode_image env s = Except.error e →
        e.kind = PyErrKind.ValueError ∧
        ∃ c, e.msg = "Failed to decode image: " ++ c) ∧
    (∀ e0, env.b64decode (stripPayload s) = Except.error e0 →
        decode_image env s =
          Except.error { kind := PyErrKind.ValueError
                         msg := "Failed to decode image: " ++ e0.msg }) ∧
    (∀ bs e1, env.b64decode (stripPayload s) = Except.ok bs →
        env.imageOpen bs = Except.error e1 →
        decode_image env s =
          Except.error { kind := PyErrKind.ValueError
                         msg := "Failed to decode image: " ++ e1.msg }) :=
  ⟨fun e he => decode_image_error_valueerror env s e he,
    fun e0 hb => decode_image_b64_error env s e0 hb,
    fun bs e1 hb ho => decode_image_open_error env s bs e1 hb ho⟩

/-- Witness for C3 on an invalid base64 input. -/
theorem C3_witness :
    decode_image envB64Fails "!!!not-base64!!!" =
      Except.error { kind := PyErrKind.ValueError
                     msg := "Failed to decode image: Incorrect padding" } :=
  (C3_decode_error_taxonomy envB64Fails "!!!not-base64!!!").2.1
    { kind := PyErrKind.BinasciiError, msg := "Incorrect padding" } rfl

/-- C4 counterexample: the claim that the decoder strips everything up to
and including the FIRST separator fails on an input with two separators:
`"a,b,c".split(",")[1]` is `"b"`, not the remainder `"b,c"`. -/
theorem C4_counterexample :
    (',' ∈ "a,b,c".data) ∧
    stripPayload "a,b,c" = "b" ∧
    specAfterFirstSep "a,b,c" = "b,c" ∧
    stripPayload "a,b,c" ≠ specAfterFirstSep "a,b,c" := by
  refine ⟨by decide, by decide, by decide, by decide⟩

/-- C4 amended: the decoder keeps the `split(",")[1]` segment — the text
between the first and the second separator. When neither the metadata
header nor the base64 portion contains a further separator (the standard
data-URL shape) this coincides with stripping everything up to and
including the first separator, and the prefixed payload decodes
identically to the raw base64 portion alone. -/
theorem C4_data_url_amended (env : Env) (hdr d : String)
    (hh : ',' ∉ hdr.data) (hd : ',' ∉ d.data) :
    stripPayload (hdr ++ "," ++ d) = d ∧
    stripPayload (hdr ++ "," ++ d) = specAfterFirstSep (hdr ++ "," ++ d) ∧
    decode_image env (hdr ++ "," ++ d) = decode_image env d := by
  have hdata : (hdr ++ "," ++ d).data = hdr.data ++ ',' :: d.data := by
    rw [string_append_data, string_append_data, List.append_assoc]
    rfl
  have hmem : ',' ∈ (hdr ++ "," ++ d).data := by
    rw [hdata]
    exact List.mem_append_right _ (List.mem_cons_self _ _)
  have h1 : stripPayload (hdr ++ "," ++ d) = d := stripPayload_data_url hdr d hh hd
  have h2 : specAfterFirstSep (hdr ++ "," ++ d) = d := by
    unfold specAfterFirstSep
    rw [if_pos hmem, hdata, dropWhile_append_comma hdr.data d.data hh]
    cases d with
    | mk l => rfl
  refine ⟨h1, by rw [h1, h2], ?_⟩
  unfold decode_image
  rw [h1, stripPayload_no_comma d hd]

/-- Witness for C4 amended on a standard data URL. -/
theorem C4_amended_witness :
    stripPayload ("data:image/png;base64" ++ "," ++ "QUJD") = "QUJD" ∧
    stripPayload ("data:image/png;base64" ++ "," ++ "QUJD") =
      specAfterFirstSep ("data:image/png;base64" ++ "," ++ "QUJD") ∧
    decode_image envOk ("data:image/png;base64" ++ "," ++ "QUJD") =
      decode_image envOk "QUJD" :=
  C4_data_url_amended envOk "data:image/png;base64" "QUJD" (by decide) (by decide)

/-- C5: invoking the embedding generator while the model handle is not
ready (model or processor still `None`) fails with the
`ModelNotReadyError` (`RuntimeError("Model not loaded")`) and produces no
vector. -/
theorem C5_not_ready_error (s : ServiceState) (image : PILImage)
    (h : s.model = none ∨ s.processor = none) :
    generate_embedding s image =
      Except.error { kind := PyErrKind.RuntimeError, msg := "Model not loaded" } ∧
    ∀ v, generate_embedding s image ≠ Except.ok v := by
  refine ⟨generate_embedding_not_loaded s image h, ?_⟩
  intro v hv
  rw [generate_embedding_not_loaded s image h] at hv
  cases hv

/-- Witness for C5 in the pre-startup state. -/
theorem C5_witness :
    generate_embedding initialState { raw := [] } =
      Except.error { kind := PyErrKind.RuntimeError, msg := "Model not loaded" } :=
  (C5_not_ready_error initialState { raw := [] } (Or.inl rfl)).1

/-- C6: a per-item failure makes the batch orchestrator skip the item with
no placeholder and continue: the output lists exactly the successes of the
remaining items, a batch with exactly one malformed entry yields exactly
N-1 results, and in general the output never exceeds the input in
length. -/
theorem C6_batch_skips_failures (env : Env) (s : ServiceState)
    (pre post : List EmbeddingRequest) (bad : EmbeddingRequest)
    (hbad : process_batch_item env s bad = none)
    (hok : ∀ r ∈ pre ++ post, (process_batch_item env s r).isSome) :
    (create_batch_embeddings env s { images := pre ++ bad :: post }).embeddings
        = (pre ++ post).filterMap (process_batch_item env s) ∧
    (create_batch_embeddings env s { images := pre ++ bad :: post }).embeddings.length
        = (pre ++ bad :: post).length - 1 ∧
    (∀ images,
      (create_batch_embeddings env s { images := images }).embeddings.length
        ≤ images.length) := by
  have h1 : (create_batch_embeddings env s { images := pre ++ bad :: post }).embeddings
      = (pre ++ post).filterMap (process_batch_item env s) := by
    show (pre ++ bad :: post).filterMap (process_batch_item env s)
        = (pre ++ post).filterMap (process_batch_item env s)
    rw [List.filterMap_append, List.filterMap_append, List.filterMap_cons_none hbad]
  refine ⟨h1, ?_, ?_⟩
  · rw [h1, filterMap_length_all_some (process_batch_item env s) (pre ++ post) hok,
      List.length_append, List.length_append, List.length_cons]
    omega
  · intro images
    show (images.filterMap (process_batch_item env s)).length ≤ images.length
    exact List.length_filterMap_le _ _

/-- Witness for C6: three items with exactly the middle one malformed give
exactly two results. -/
theorem C6_witness :
    (create_batch_embeddings envMix stLoaded
        { images := [reqA] ++ reqB :: [reqC] }).embeddings.length
      = ([reqA] ++ reqB :: [reqC]).length - 1 :=
  (C6_batch_skips_failures envMix stLoaded [reqA] [reqC] reqB rfl
    (by
      intro r hr
      simp only [List.cons_append, List.nil_append, List.mem_cons,
        List.not_mem_nil, or_false] at hr
      rcases hr with h | h
      · rw [h]
        rfl
      · rw [h]
        rfl)).2.1

/-- C7: batch items are processed sequentially in input order and each
success echoes its item's `client_id`: the output ids form an
order-preserving subsequence of the input ids, and
`[validA, corruptB, validC]` yields `[embedding(validA), embedding(validC)]`
in that relative order. -/
theorem C7_batch_order_and_echo (env : Env) (s : ServiceState) :
    (∀ breq, List.Sublist
        ((create_batch_embeddings env s breq).embeddings.map (fun r => r.image_id))
        (breq.images.map (fun r => r.image_id))) ∧
    (∀ a b c ra rc, process_batch_item env s a = some ra →
        process_batch_item env s b = none →
        process_batch_item env s c = some rc →
        (create_batch_embeddings env s { images := [a, b, c] }).embeddings = [ra, rc] ∧
        ra.image_id = a.image_id ∧ rc.image_id = c.image_id) := by
  constructor
  · intro breq
    exact batch_ids_sublist env s breq.images
  · intro a b c ra rc ha hb hc
    refine ⟨?_, process_batch_item_echoes_id env s a ra ha,
      process_batch_item_echoes_id env s c rc hc⟩
    show [a, b, c].filterMap (process_batch_item env s) = [ra, rc]
    rw [List.filterMap_cons_some ha, List.filterMap_cons_none hb,
      List.filterMap_cons_some hc, List.filterMap_nil]

/-- Witness for C7 on the `[validA, corruptB, validC]` scenario. -/
theorem C7_witness :
    (create_batch_embeddings envMix stLoaded
        { images := [reqA, reqB, reqC] }).embeddings
      = [respUnit (some "validA"), respUnit (some "validC")] ∧
    (respUnit (some "validA")).image_id = reqA.image_id ∧
    (respUnit (some "validC")).image_id = reqC.image_id :=
  (C7_batch_order_and_echo envMix stLoaded).2 reqA reqB reqC
    (respUnit (some "validA")) (respUnit (some "validC")) rfl rfl rfl

/-- C8: a health query before model load completes reports
`model_loaded = false`; after the startup hook completes it reports
`model_loaded = true` and the device chosen at load time — the
accelerated device when available, else the default — which is one of the
two recognized identifiers. Handlers never write the state, so the choice
is fixed for the process lifetime. -/
theorem C8_health_reflects_lifecycle (env : Env) (s : ServiceState) :
    (health_check initialState).model_loaded = false ∧
    (health_check (lifespanStartup env s)).model_loaded = true ∧
    (health_check (lifespanStartup env s)).device =
      (if env.cuda_available then "cuda" else "cpu") ∧
    ((health_check (lifespanStartup env s)).device = "cuda" ∨
      (health_check (lifespanStartup env s)).device = "cpu") := by
  refine ⟨rfl, rfl, rfl, ?_⟩
  by_cases h : env.cuda_available
  · exact Or.inl (by simp [health_check, lifespanStartup, h])
  · exact Or.inr (by simp [health_check, lifespanStartup, h])

/-- C9 counterexample: with a loaded model whose preprocessing raises a
`ValueError`, decoding succeeds and generation fails, yet the single-image
endpoint answers HTTP 400, not the claimed 500: the endpoint's 400 branch
selects on the exception class, not on the failure's origin. -/
theorem C9_counterexample :
    decode_image envOk "QUJD" = Except.ok { raw := [] } ∧
    generate_embedding stBadProc { raw := [] } =
      Except.error { kind := PyErrKind.ValueError, msg := "preprocessing failed" } ∧
    create_embedding envOk stBadProc { image_base64 := "QUJD", image_id := some "a" } =
      Except.error { status_code := 400, detail := "preprocessing failed" } ∧
    (400 : Nat) ≠ 500 :=
  ⟨rfl, rfl, rfl, by decide⟩

/-- C9 amended: a `DecodeError` is surfaced as HTTP 400; a generation
failure (model not ready, preprocessing or inference) is surfaced as HTTP
500 whenever the raised exception is not itself a `ValueError` (a
`ValueError` raised during generation is also surfaced as 400, because
the endpoint distinguishes by exception class); on success the response
carries the echoed `image_id`, the embedding and its dimension. -/
theorem C9_status_codes_amended (env : Env) (s : ServiceState)
    (req : EmbeddingRequest) :
    (∀ e, decode_image env req.image_base64 = Except.error e →
        create_embedding env s req =
          Except.error { status_code := 400, detail := e.msg }) ∧
    (∀ image e, decode_image env req.image_base64 = Except.ok image →
        generate_embedding s image = Except.error e →
        e.kind ≠ PyErrKind.ValueError →
        create_embedding env s req =
          Except.error { status_code := 500
                         detail := "Embedding generation failed: " ++ e.msg }) ∧
    (∀ image emb, decode_image env req.image_base64 = Except.ok image →
        generate_embedding s image = Except.ok emb →
        create_embedding env s req =
          Except.ok { image_id := req.image_id
                      embedding := emb
                      dimension := emb.length }) := by
  refine ⟨?_, ?_, ?_⟩
  · intro e he
    have hkind := (decode_image_error_valueerror env req.image_base64 e he).1
    unfold create_embedding
    rw [embed_pipeline_decode_error env s _ _ e he, httpWrap_error, if_pos hkind]
  · intro image e hd hg hk
    unfold create_embedding
    rw [embed_pipeline_gen_error env s _ _ image e hd hg, httpWrap_error, if_neg hk]
  · intro image emb hd hg
    unfold create_embedding
    rw [embed_pipeline_succeeds env s _ _ image emb hd hg, httpWrap_ok]

/-- Witness for C9 amended: the not-ready `RuntimeError` surfaces as 500. -/
theorem C9_amended_witness :
    create_embedding envOk initialState
        { image_base64 := "QUJD", image_id := some "a" } =
      Except.error { status_code := 500
                     detail := "Embedding generation failed: Model not loaded" } :=
  (C9_status_codes_amended envOk initialState
      { image_base64 := "QUJD", image_id := some "a" }).2.1 { raw := [] }
    { kind := PyErrKind.RuntimeError, msg := "Model not loaded" } rfl rfl (by decide)

/-- C10: a batch request made before the model has loaded signals no
service-unavailable condition: the per-item not-ready error is swallowed
like any other per-item failure, and the handler returns (as HTTP 200)
an empty result sequence for every batch. -/
theorem C10_batch_before_load_empty (env : Env) (s : ServiceState)
    (images : List EmbeddingRequest) (h : s.model = none) :
    create_batch_embeddings env s { images := images } = { embeddings := [] } := by
  have hall : ∀ r ∈ images, process_batch_item env s r = none :=
    fun r _ => process_batch_item_not_ready env s r h
  unfold create_batch_embeddings
  rw [List.filterMap_eq_nil_iff.mpr hall]

/-- Witness for C10 on a concrete two-item batch in the initial state. -/
theorem C10_witness :
    create_batch_embeddings envOk initialState { images := [reqA, reqB] } =
      { embeddings := [] } :=
  C10_batch_before_load_empty envOk initialState [reqA, reqB] rfl

end Mnemosyne
